import Mathlib

/-!
Shallow embedding of `cmd/ipfs-cluster-service/state.go` from the
ipfs-cluster repository: the snapshot retrieval, version-gating,
migration and re-persistence pipeline (restoreStateFromDisk, upgrade,
stateImport, exportState, validateVersion), together with theorems
checking the natural-language specification against it.

External collaborators (the raft snapshot store, the mapstate container,
the peer store, the JSON codec of the standard library) are not part of
the source under verification; their outcomes are fields of an
environment record `Env`, and the concrete semantics of the mapstate
container needed for the export/import round trip is modelled from the
specification.
-/

/-- A Go error value, as produced by errors.New: identified here by its
message string. -/
structure Err where
  msg : String
deriving DecidableEq, Repr

/-- The sentinel `errNoSnapshot = errors.New("no snapshot found")` from
state.go line 20. -/
def errNoSnapshot : Err := ⟨"no snapshot found"⟩

/-- The error `errors.New("outdated state version stored")` created in
validateVersion, state.go line 160. -/
def errOutdatedState : Err := ⟨"outdated state version stored"⟩

/-- Modelled from the spec: a Record (Pin) is one pinned-content entry,
a content identifier plus placement/replication metadata; the api.Pin
type is outside the verified sources. -/
structure Pin where
  cid : String
  replicationFactorMin : Int
  replicationFactorMax : Int
deriving DecidableEq, Repr

/-- Modelled from the spec: the mapstate VersionedState container, an
in-memory collection of Records keyed by content identifier and tagged
with a schema version integer; the mapstate package is outside the
verified sources. The pin map is an association list keyed by cid. -/
structure MapState where
  version : Nat
  pinMap : List (String × Pin)
deriving DecidableEq, Repr

/-- Modelled from the spec: `mapstate.Version`, the constant current
schema version understood by this binary. -/
def mapstateVersion : Nat := 5

/-- Modelled from the spec: `mapstate.NewMapState()` constructs a fresh
empty VersionedState at the current schema version. -/
def newMapState : MapState := ⟨mapstateVersion, []⟩

/-- Modelled from the spec: `list()` enumerates the records of a
VersionedState (ordering is whatever the map yields). -/
def MapState.list (s : MapState) : List Pin := s.pinMap.map Prod.snd

/-- Modelled from the spec: `add(record)` stores one record under its
content identifier; identity is the content identifier, so an existing
entry with the same identifier is overwritten. -/
def MapState.add (s : MapState) (p : Pin) : Except Err MapState :=
  .ok { s with pinMap := s.pinMap.filter (fun kv => kv.1 != p.cid) ++ [(p.cid, p)] }

/-- A read cursor over an immutable byte buffer, as created by
`bytes.NewReader`: the underlying data plus the current position. -/
structure Cursor where
  data : List Nat
  pos : Nat
deriving DecidableEq, Repr

/-- Outcomes of the external collaborators consumed by state.go:
the configuration loader, the raft snapshot store (`raft.LastStateRaw`,
`raft.SnapshotSave`), `ioutil.ReadAll`, the mapstate decode/migrate
routines, the JSON pin-list decoder of stateImport, the mapstate `Add`
used by stateImport, and the peer store. -/
structure Env where
  /-- result of `cfgMgr.LoadJSONFileAndEnv(configPath)` -/
  loadConfig : Except Err Unit
  /-- the existence flag returned by `raft.LastStateRaw` -/
  snapExists : Bool
  /-- the error returned by `raft.LastStateRaw` (`none` means nil) -/
  lastStateErr : Option Err
  /-- the raw snapshot bytes behind the reader returned by `raft.LastStateRaw` -/
  rawBytes : List Nat
  /-- the error outcome of `ioutil.ReadAll` on that reader (`none`: full read) -/
  readAllErr : Option Err
  /-- `(*MapState).Unmarshal`: receiver and cursor in, updated receiver and cursor out -/
  unmarshal : MapState → Cursor → Except Err (MapState × Cursor)
  /-- `(*MapState).Migrate`: receiver and cursor in, migrated receiver and cursor out -/
  migrate : MapState → Cursor → Except Err (MapState × Cursor)
  /-- outcome of `dec.Decode(&pins)` on the import reader -/
  decodePins : Except Err (List Pin)
  /-- the `Add` method used by stateImport on its fresh state -/
  add : MapState → Pin → Except Err MapState
  /-- `ipfscluster.PeersFromMultiaddrs(pm.LoadPeerstore())` -/
  loadPeerstorePeers : List String
  /-- `cfgs.clusterCfg.ID`, the local node identity -/
  selfID : String
  /-- the error returned by `raft.SnapshotSave` (`none` means nil) -/
  snapshotSaveResult : Option Err

/-- Instrumentation recorded while running restoreStateFromDisk: how many
times the raw reader was read fully into memory, and the cursors handed
to the version-probe decode and to the migration decode. -/
structure RestoreTrace where
  readAllCalls : Nat
  probeCursor : Option Cursor
  migrateCursor : Option Cursor
deriving DecidableEq, Repr

/-- `restoreStateFromDisk` (state.go lines 63 to 104), instrumented with
a `RestoreTrace`. Mirrors the source: load config; call LastStateRaw and
replace the error with errNoSnapshot when no snapshot exists; read the
full raw bytes once; decode with the current decoder from a fresh cursor;
return `(state, true)` when the decoded version is current, otherwise
migrate from a second fresh cursor over the same bytes and return
`(migrated, false)`. -/
def restoreStateFromDiskT (env : Env) : Except Err (MapState × Bool) × RestoreTrace :=
  match env.loadConfig with
  | .error e => (.error e, ⟨0, none, none⟩)
  | .ok _ =>
    -- r, snapExists, err := raft.LastStateRaw(...); if !snapExists { err = errNoSnapshot }
    let err0 : Option Err := if env.snapExists then env.lastStateErr else some errNoSnapshot
    match err0 with
    | some e => (.error e, ⟨0, none, none⟩)
    | none =>
      -- full, err := ioutil.ReadAll(r)
      match env.readAllErr with
      | some e => (.error e, ⟨1, none, none⟩)
      | none =>
        let full := env.rawBytes
        let stateFromSnap := newMapState
        -- reader1 := bytes.NewReader(full)
        let reader1 : Cursor := ⟨full, 0⟩
        match env.unmarshal stateFromSnap reader1 with
        | .error e => (.error e, ⟨1, some reader1, none⟩)
        | .ok (decoded, _) =>
          if decoded.version = mapstateVersion then
            (.ok (decoded, true), ⟨1, some reader1, none⟩)
          else
            -- reader2 := bytes.NewReader(full)
            let reader2 : Cursor := ⟨full, 0⟩
            match env.migrate decoded reader2 with
            | .error e => (.error e, ⟨1, some reader1, some reader2⟩)
            | .ok (migrated, _) => (.ok (migrated, false), ⟨1, some reader1, some reader2⟩)

/-- `restoreStateFromDisk`: the result component of the instrumented run. -/
def restoreStateFromDisk (env : Env) : Except Err (MapState × Bool) :=
  (restoreStateFromDiskT env).1

/-- A recorded invocation of `raft.SnapshotSave`: the state and the peer
membership list passed to it. -/
structure SaveCall where
  st : MapState
  peers : List String
deriving DecidableEq, Repr

/-- `upgrade` (state.go lines 22 to 46): restore the state from disk;
when it is already current, return nil without saving; otherwise reload
the configuration, build the peer list from the peer store with the
local identity appended, and call SnapshotSave. The second component
records the SnapshotSave invocation, `none` when it never happened. -/
def upgrade (env : Env) : Option Err × Option SaveCall :=
  match restoreStateFromDisk env with
  | .error e => (some e, none)
  | .ok (newState, current) =>
    if current then (none, none)
    else
      match env.loadConfig with
      | .error e => (some e, none)
      | .ok _ =>
        let raftPeers := env.loadPeerstorePeers ++ [env.selfID]
        (env.snapshotSaveResult, some ⟨newState, raftPeers⟩)

/-- `addAllE`: the loop of stateImport (state.go lines 125 to 130),
adding each decoded pin in source order to the state, aborting on the
first add error. -/
def addAllE (add : MapState → Pin → Except Err MapState) :
    MapState → List Pin → Except Err MapState
  | s, [] => .ok s
  | s, p :: ps =>
    match add s p with
    | .error e => .error e
    | .ok s2 => addAllE add s2 ps

/-- `stateImport` (state.go lines 106 to 135): load config, JSON-decode
the pin list, add each pin in order to a fresh MapState, then save a
snapshot with the peer-store peers plus the local identity. The second
component records the SnapshotSave invocation, `none` when it never
happened. -/
def stateImport (env : Env) : Option Err × Option SaveCall :=
  match env.loadConfig with
  | .error e => (some e, none)
  | .ok _ =>
    match env.decodePins with
    | .error e => (some e, none)
    | .ok pins =>
      match addAllE env.add newMapState pins with
      | .error e => (some e, none)
      | .ok stateToImport =>
        let raftPeers := env.loadPeerstorePeers ++ [env.selfID]
        (env.snapshotSaveResult, some ⟨stateToImport, raftPeers⟩)

/-- `exportState` (state.go lines 167 to 178): serialize `state.List`.
The JSON text layer of the standard library encoder is abstracted: the
produced interchange document is its array of records. -/
def exportState (s : MapState) : List Pin := s.list

/-- The decode-and-add phase of stateImport run on an interchange
document, with the concrete modelled mapstate `Add`. -/
def importPins (doc : List Pin) : Except Err MapState :=
  addAllE MapState.add newMapState doc

/-- `validateVersion` (state.go lines 137 to 164): the returned error
(`none` means nil) together with the list of logged error lines, mirroring
the four-way branch on the existence flag and error of LastStateRaw. -/
def validateVersion (env : Env) : Option Err × List String :=
  match env.snapExists, env.lastStateErr with
  | false, some e => (some e, ["error before reading latest snapshot."])
  | true, some e =>
      (some e, ["error after reading last snapshot. Snapshot potentially corrupt."])
  | true, none =>
      match env.unmarshal newMapState ⟨env.rawBytes, 0⟩ with
      | .error e2 =>
          (some e2, ["error unmarshalling snapshot. Snapshot potentially corrupt."])
      | .ok (decoded, _) =>
          if decoded.version ≠ mapstateVersion then
            (some errOutdatedState,
             ["Out of date ipfs-cluster state is saved.",
              "To migrate to the new version, run ipfs-cluster-service state upgrade.",
              "To launch a node without this state, rename the consensus data directory.",
              "Hint: the default is .ipfs-cluster/raft."])
          else (none, [])
  | false, none => (none, [])

/-! ## Concrete environments used by witnesses -/

/-- A baseline environment: configuration loads, a snapshot exists and
reads cleanly, decoding returns the receiver unchanged, migration
returns the receiver unchanged, the import document is empty and the
peer store is empty. -/
def baseEnv : Env :=
  { loadConfig := .ok ()
    snapExists := true
    lastStateErr := none
    rawBytes := [1, 2, 3]
    readAllErr := none
    unmarshal := fun s c => .ok (s, c)
    migrate := fun s c => .ok (s, c)
    decodePins := .ok []
    add := MapState.add
    loadPeerstorePeers := []
    selfID := "self"
    snapshotSaveResult := none }

/-- An environment whose snapshot decodes to an old schema version. -/
def envOld : Env :=
  { baseEnv with unmarshal := fun s c => .ok ({ s with version := 4 }, c) }

/-- An environment where the snapshot source reports that no snapshot
exists together with a read error of its own. -/
def envC5 : Env :=
  { baseEnv with
      snapExists := false
      lastStateErr := some ⟨"disk read failed"⟩ }

/-- An environment where a snapshot exists and the source reports a read
error. -/
def envIOafter : Env :=
  { baseEnv with lastStateErr := some ⟨"io fail"⟩ }

/-! ## Claims about restoreStateFromDisk -/

/-- Claim C1: for every snapshot whose bytes decode successfully with
the current decoder, restoreStateFromDisk returns isCurrent = true and
the decoded state when the decoded schema version equals the current
version, and otherwise runs the migration routine over a fresh cursor on
the same raw bytes and returns the migrated state with
isCurrent = false. -/
theorem claim_C1 (env : Env) (s : MapState) (c : Cursor)
    (hcfg : env.loadConfig = .ok ())
    (hex : env.snapExists = true)
    (herr : env.lastStateErr = none)
    (hread : env.readAllErr = none)
    (hun : env.unmarshal newMapState ⟨env.rawBytes, 0⟩ = .ok (s, c)) :
    (s.version = mapstateVersion → restoreStateFromDisk env = .ok (s, true)) ∧
    (s.version ≠ mapstateVersion → ∀ m c2,
      env.migrate s ⟨env.rawBytes, 0⟩ = .ok (m, c2) →
      restoreStateFromDisk env = .ok (m, false)) := by
  constructor
  · intro hv
    simp [restoreStateFromDisk, restoreStateFromDiskT, hcfg, hex, herr, hread, hun, hv]
  · intro hv m c2 hm
    simp [restoreStateFromDisk, restoreStateFromDiskT, hcfg, hex, herr, hread, hun, hv, hm]

/-- Witness for C1 at concrete environments: the current-version path and
the migration path. -/
theorem claim_C1_witness :
    restoreStateFromDisk baseEnv = .ok (newMapState, true) ∧
    restoreStateFromDisk envOld = .ok ({ newMapState with version := 4 }, false) :=
  ⟨(claim_C1 baseEnv newMapState ⟨baseEnv.rawBytes, 0⟩ rfl rfl rfl rfl rfl).1 rfl,
   (claim_C1 envOld { newMapState with version := 4 } ⟨envOld.rawBytes, 0⟩
      rfl rfl rfl rfl rfl).2 (by decide) { newMapState with version := 4 }
      ⟨envOld.rawBytes, 0⟩ rfl⟩

/-- Claim C8: whenever decoding or migration fails, restoreStateFromDisk
returns the failure as its error; in this embedding the error
constructor carries no state, matching the nil state returned by the
source on those paths. -/
theorem claim_C8 (env : Env)
    (hcfg : env.loadConfig = .ok ())
    (hex : env.snapExists = true)
    (herr : env.lastStateErr = none)
    (hread : env.readAllErr = none) :
    (∀ e, env.unmarshal newMapState ⟨env.rawBytes, 0⟩ = .error e →
      restoreStateFromDisk env = .error e) ∧
    (∀ s c e, env.unmarshal newMapState ⟨env.rawBytes, 0⟩ = .ok (s, c) →
      s.version ≠ mapstateVersion →
      env.migrate s ⟨env.rawBytes, 0⟩ = .error e →
      restoreStateFromDisk env = .error e) := by
  constructor
  · intro e hu
    simp [restoreStateFromDisk, restoreStateFromDiskT, hcfg, hex, herr, hread, hu]
  · intro s c e hu hv hm
    simp [restoreStateFromDisk, restoreStateFromDiskT, hcfg, hex, herr, hread, hu, hv, hm]

/-- An environment whose snapshot bytes fail to decode. -/
def envBadDecode : Env :=
  { baseEnv with unmarshal := fun _ _ => .error ⟨"bad bytes"⟩ }

/-- An environment whose snapshot decodes to an old version and whose
migration fails. -/
def envBadMigrate : Env :=
  { envOld with migrate := fun _ _ => .error ⟨"migration failed"⟩ }

/-- Witness for C8 at concrete environments: a decode failure and a
migration failure. -/
theorem claim_C8_witness :
    restoreStateFromDisk envBadDecode = .error ⟨"bad bytes"⟩ ∧
    restoreStateFromDisk envBadMigrate = .error ⟨"migration failed"⟩ :=
  ⟨(claim_C8 envBadDecode rfl rfl rfl rfl).1 ⟨"bad bytes"⟩ rfl,
   (claim_C8 envBadMigrate rfl rfl rfl rfl).2 { newMapState with version := 4 }
      ⟨envBadMigrate.rawBytes, 0⟩ ⟨"migration failed"⟩ rfl (by decide) rfl⟩

/-- Claim C5 as stated is false: when the snapshot source reports that no
snapshot exists together with its own read error, the error is replaced
by errNoSnapshot rather than surfaced (state.go lines 75 to 77). -/
theorem claim_C5_counterexample :
    envC5.lastStateErr = some ⟨"disk read failed"⟩ ∧
    restoreStateFromDisk envC5 = .error errNoSnapshot ∧
    errNoSnapshot ≠ Err.mk "disk read failed" := by
  refine ⟨rfl, rfl, ?_⟩
  decide

/-- Claim C5, amended: whenever the snapshot source reports that no
snapshot exists, restoreStateFromDisk fails with errNoSnapshot, replacing
any error the source also reported; an I/O error reported while a
snapshot exists is surfaced as its own error. -/
theorem claim_C5 (env : Env) (hcfg : env.loadConfig = .ok ()) :
    (env.snapExists = false → restoreStateFromDisk env = .error errNoSnapshot) ∧
    (∀ e, env.snapExists = true → env.lastStateErr = some e →
      restoreStateFromDisk env = .error e) := by
  constructor
  · intro hex
    simp [restoreStateFromDisk, restoreStateFromDiskT, hcfg, hex]
  · intro e hex herr
    simp [restoreStateFromDisk, restoreStateFromDiskT, hcfg, hex, herr]

/-- Witness for the amended C5: the absence path and the read-error path
at concrete environments. -/
theorem claim_C5_witness :
    restoreStateFromDisk envC5 = .error errNoSnapshot ∧
    restoreStateFromDisk envIOafter = .error ⟨"io fail"⟩ :=
  ⟨(claim_C5 envC5 rfl).1 rfl,
   (claim_C5 envIOafter rfl).2 ⟨"io fail"⟩ rfl rfl⟩

/-! ## Claims about validateVersion -/

/-- Claim C2: validateVersion returns nil exactly when either no snapshot
is present and no read error occurred, or a snapshot is present, decodes
successfully, and its schema version equals the current version. -/
theorem claim_C2 (env : Env) :
    (validateVersion env).1 = none ↔
      (env.snapExists = false ∧ env.lastStateErr = none) ∨
      (env.snapExists = true ∧ env.lastStateErr = none ∧
        ∃ s c, env.unmarshal newMapState ⟨env.rawBytes, 0⟩ = .ok (s, c) ∧
          s.version = mapstateVersion) := by
  cases hex : env.snapExists <;> cases herr : env.lastStateErr
  · simp [validateVersion, hex, herr]
  · simp [validateVersion, hex, herr]
  · cases hu : env.unmarshal newMapState ⟨env.rawBytes, 0⟩ with
    | error e2 => simp [validateVersion, hex, herr, hu]
    | ok v =>
      by_cases hv : v.1.version = mapstateVersion
      · simp [validateVersion, hex, herr, hu, hv]
        exact ⟨v.1, ⟨v.2, rfl⟩, hv⟩
      · simp [validateVersion, hex, herr, hu, hv]
        rintro x c rfl
        exact hv
  · simp [validateVersion, hex, herr]

/-- Claim C6: with a snapshot present, validateVersion surfaces a source
read error or a decode error as the returned error flagged by the
corruption log line, while a successfully decoded snapshot at a
non-current version yields the distinct errOutdatedState error together
with the operator remediation guidance; the corruption flag never
appears in the outdated case and vice versa. -/
theorem claim_C6 (env : Env) (hex : env.snapExists = true) :
    (∀ e, env.lastStateErr = some e →
      validateVersion env =
        (some e, ["error after reading last snapshot. Snapshot potentially corrupt."])) ∧
    (∀ e, env.lastStateErr = none →
      env.unmarshal newMapState ⟨env.rawBytes, 0⟩ = .error e →
      validateVersion env =
        (some e, ["error unmarshalling snapshot. Snapshot potentially corrupt."])) ∧
    (∀ s c, env.lastStateErr = none →
      env.unmarshal newMapState ⟨env.rawBytes, 0⟩ = .ok (s, c) →
      s.version ≠ mapstateVersion →
      validateVersion env = (some errOutdatedState,
        ["Out of date ipfs-cluster state is saved.",
         "To migrate to the new version, run ipfs-cluster-service state upgrade.",
         "To launch a node without this state, rename the consensus data directory.",
         "Hint: the default is .ipfs-cluster/raft."])) := by
  refine ⟨?_, ?_, ?_⟩
  · intro e herr
    simp [validateVersion, hex, herr]
  · intro e herr hu
    simp [validateVersion, hex, herr, hu]
  · intro s c herr hu hv
    simp [validateVersion, hex, herr, hu, hv]

/-- Witness for C6 at concrete environments: the read-error, decode-error
and outdated-version branches. -/
theorem claim_C6_witness :
    validateVersion envIOafter =
      (some ⟨"io fail"⟩,
       ["error after reading last snapshot. Snapshot potentially corrupt."]) ∧
    validateVersion envBadDecode =
      (some ⟨"bad bytes"⟩,
       ["error unmarshalling snapshot. Snapshot potentially corrupt."]) ∧
    validateVersion envOld = (some errOutdatedState,
      ["Out of date ipfs-cluster state is saved.",
       "To migrate to the new version, run ipfs-cluster-service state upgrade.",
       "To launch a node without this state, rename the consensus data directory.",
       "Hint: the default is .ipfs-cluster/raft."]) :=
  ⟨(claim_C6 envIOafter rfl).1 ⟨"io fail"⟩ rfl,
   (claim_C6 envBadDecode rfl).2.1 ⟨"bad bytes"⟩ rfl rfl,
   (claim_C6 envOld rfl).2.2 { newMapState with version := 4 }
     ⟨envOld.rawBytes, 0⟩ rfl rfl (by decide)⟩

/-! ## Claims about upgrade -/

/-- Claim C10: when restoreStateFromDisk reports the on-disk state is
already at the current version, upgrade returns nil without invoking
SnapshotSave. -/
theorem claim_C10 (env : Env) (s : MapState)
    (h : restoreStateFromDisk env = .ok (s, true)) :
    upgrade env = (none, none) := by
  simp [upgrade, h]

/-- Witness for C10 at a concrete environment whose snapshot is already
current. -/
theorem claim_C10_witness : upgrade baseEnv = (none, none) :=
  claim_C10 baseEnv newMapState rfl

/-! ## Claims about the membership list and stateImport -/

/-- The SnapshotSave invocation of upgrade, when it happens, carries the
peer-store peers with the local identity appended. -/
lemma upgrade_snd (env : Env) :
    (upgrade env).2 = none ∨
    ∃ s, (upgrade env).2 = some ⟨s, env.loadPeerstorePeers ++ [env.selfID]⟩ := by
  unfold upgrade
  rcases hr : restoreStateFromDisk env with e | ⟨s, cur⟩
  · exact Or.inl rfl
  · rcases cur
    · rcases hc : env.loadConfig with e | u
      · exact Or.inl rfl
      · exact Or.inr ⟨s, rfl⟩
    · exact Or.inl rfl

/-- The SnapshotSave invocation of stateImport, when it happens, carries
the peer-store peers with the local identity appended. -/
lemma stateImport_snd (env : Env) :
    (stateImport env).2 = none ∨
    ∃ s, (stateImport env).2 = some ⟨s, env.loadPeerstorePeers ++ [env.selfID]⟩ := by
  rcases hc : env.loadConfig with e | u
  · exact Or.inl (by simp [stateImport, hc])
  · rcases hd : env.decodePins with e | pins
    · exact Or.inl (by simp [stateImport, hc, hd])
    · rcases ha : addAllE env.add newMapState pins with e | st
      · exact Or.inl (by simp [stateImport, hc, hd, ha])
      · exact Or.inr ⟨st, by simp [stateImport, hc, hd, ha]⟩

/-- Claim C3: for every input peer set, including the empty one, the
membership list passed to SnapshotSave by the upgrade path and by the
path of stateImport is the externally loaded peer identities with the local
identity appended, so it always contains the local identity. -/
theorem claim_C3 (env : Env) :
    (∀ sc, (upgrade env).2 = some sc →
      sc.peers = env.loadPeerstorePeers ++ [env.selfID] ∧ env.selfID ∈ sc.peers) ∧
    (∀ sc, (stateImport env).2 = some sc →
      sc.peers = env.loadPeerstorePeers ++ [env.selfID] ∧ env.selfID ∈ sc.peers) := by
  constructor
  · intro sc h
    rcases upgrade_snd env with h0 | ⟨s, hs⟩
    · rw [h0] at h; cases h
    · rw [hs] at h
      injection h with h
      subst h
      exact ⟨rfl, by simp⟩
  · intro sc h
    rcases stateImport_snd env with h0 | ⟨s, hs⟩
    · rw [h0] at h; cases h
    · rw [hs] at h
      injection h with h
      subst h
      exact ⟨rfl, by simp⟩

/-- Witness for C3: the import path of a concrete environment whose peer
store is empty still lists the local identity. -/
theorem claim_C3_witness :
    (SaveCall.mk newMapState ["self"]).peers =
      baseEnv.loadPeerstorePeers ++ [baseEnv.selfID] ∧
    baseEnv.selfID ∈ (SaveCall.mk newMapState ["self"]).peers :=
  (claim_C3 baseEnv).2 (SaveCall.mk newMapState ["self"]) rfl

/-- Claim C7: stateImport aborts with an error on a malformed document or
on the first failing add, in which case SnapshotSave is never invoked; on
success the saved state is the in-order fold of add over the decoded
records, and the add loop processes records in source order, aborting at
the first failure. -/
theorem claim_C7 (env : Env) (hcfg : env.loadConfig = .ok ()) :
    (∀ e, env.decodePins = .error e → stateImport env = (some e, none)) ∧
    (∀ pins e, env.decodePins = .ok pins →
      addAllE env.add newMapState pins = .error e →
      stateImport env = (some e, none)) ∧
    (∀ pins st, env.decodePins = .ok pins →
      addAllE env.add newMapState pins = .ok st →
      stateImport env =
        (env.snapshotSaveResult, some ⟨st, env.loadPeerstorePeers ++ [env.selfID]⟩)) ∧
    (∀ s p ps e, env.add s p = .error e →
      addAllE env.add s (p :: ps) = .error e) ∧
    (∀ s p ps s2, env.add s p = .ok s2 →
      addAllE env.add s (p :: ps) = addAllE env.add s2 ps) := by
  refine ⟨?_, ?_, ?_, ?_, ?_⟩
  · intro e hd
    simp [stateImport, hcfg, hd]
  · intro pins e hd ha
    simp [stateImport, hcfg, hd, ha]
  · intro pins st hd ha
    simp [stateImport, hcfg, hd, ha]
  · intro s p ps e hadd
    simp [addAllE, hadd]
  · intro s p ps s2 hadd
    simp [addAllE, hadd]

/-- An environment whose import document holds two records and whose add
rejects the second one. -/
def envAddFail : Env :=
  { baseEnv with
      decodePins := .ok [⟨"a", 1, 1⟩, ⟨"b", 1, 1⟩]
      add := fun s p =>
        if p.cid = "b" then .error ⟨"add failed"⟩ else MapState.add s p }

/-- An environment whose import document is malformed. -/
def envBadJSON : Env :=
  { baseEnv with decodePins := .error ⟨"invalid character"⟩ }

/-- Witness for C7 at concrete environments: a malformed document and a
failing add, each without a save; and a successful import saving the
folded state. -/
theorem claim_C7_witness :
    stateImport envBadJSON = (some ⟨"invalid character"⟩, none) ∧
    stateImport envAddFail = (some ⟨"add failed"⟩, none) ∧
    stateImport baseEnv = (none, some ⟨newMapState, [] ++ ["self"]⟩) :=
  ⟨(claim_C7 envBadJSON rfl).1 ⟨"invalid character"⟩ rfl,
   (claim_C7 envAddFail rfl).2.1 [⟨"a", 1, 1⟩, ⟨"b", 1, 1⟩] ⟨"add failed"⟩ rfl rfl,
   (claim_C7 baseEnv rfl).2.2.1 [] newMapState rfl rfl⟩

/-! ## Claim about the dual interpretation of the raw bytes -/

/-- The trace of restoreStateFromDisk takes one of four shapes: nothing
read, one full read with no decode reached, one full read with the probe
cursor, or one full read with both the probe and the migration cursor,
each cursor at position 0 over the raw bytes. -/
lemma restoreTrace_cases (env : Env) :
    (restoreStateFromDiskT env).2 = ⟨0, none, none⟩ ∨
    (restoreStateFromDiskT env).2 = ⟨1, none, none⟩ ∨
    (restoreStateFromDiskT env).2 = ⟨1, some ⟨env.rawBytes, 0⟩, none⟩ ∨
    (restoreStateFromDiskT env).2 =
      ⟨1, some ⟨env.rawBytes, 0⟩, some ⟨env.rawBytes, 0⟩⟩ := by
  rcases hc : env.loadConfig with e | u
  · exact Or.inl (by simp [restoreStateFromDiskT, hc])
  · cases hex : env.snapExists
    · exact Or.inl (by simp [restoreStateFromDiskT, hc, hex])
    · rcases herr : env.lastStateErr with _ | e
      · rcases hread : env.readAllErr with _ | e
        · rcases hu : env.unmarshal newMapState ⟨env.rawBytes, 0⟩ with e | ⟨s, c⟩
          · exact Or.inr (Or.inr (Or.inl
              (by simp [restoreStateFromDiskT, hc, hex, herr, hread, hu])))
          · by_cases hv : s.version = mapstateVersion
            · exact Or.inr (Or.inr (Or.inl
                (by simp [restoreStateFromDiskT, hc, hex, herr, hread, hu, hv])))
            · rcases hm : env.migrate s ⟨env.rawBytes, 0⟩ with e | ⟨m, c2⟩
              · exact Or.inr (Or.inr (Or.inr
                  (by simp [restoreStateFromDiskT, hc, hex, herr, hread, hu, hv, hm])))
              · exact Or.inr (Or.inr (Or.inr
                  (by simp [restoreStateFromDiskT, hc, hex, herr, hread, hu, hv, hm])))
        · exact Or.inr (Or.inl
            (by simp [restoreStateFromDiskT, hc, hex, herr, hread]))
      · exact Or.inl (by simp [restoreStateFromDiskT, hc, hex, herr])

/-- Claim C9: restoreStateFromDisk reads the raw snapshot content into
memory at most once, exactly once when any decode happens, and the
version-probe decode and the migration decode each receive an
independent cursor at position 0 over that same byte buffer. -/
theorem claim_C9 (env : Env) :
    ((restoreStateFromDiskT env).2.readAllCalls ≤ 1) ∧
    (∀ c, (restoreStateFromDiskT env).2.probeCursor = some c →
      c.data = env.rawBytes ∧ c.pos = 0 ∧
      (restoreStateFromDiskT env).2.readAllCalls = 1) ∧
    (∀ c, (restoreStateFromDiskT env).2.migrateCursor = some c →
      c.data = env.rawBytes ∧ c.pos = 0 ∧
      (restoreStateFromDiskT env).2.probeCursor = some ⟨env.rawBytes, 0⟩) := by
  rcases restoreTrace_cases env with h | h | h | h <;> rw [h]
  · refine ⟨by simp, ?_, ?_⟩ <;> intro c hc <;> simp at hc
  · refine ⟨by simp, ?_, ?_⟩ <;> intro c hc <;> simp at hc
  · refine ⟨by simp, ?_, ?_⟩ <;> intro c hc <;> simp at hc
    subst hc
    exact ⟨rfl, rfl, rfl⟩
  · refine ⟨by simp, ?_, ?_⟩ <;> intro c hc <;> simp at hc <;> subst hc <;>
      exact ⟨rfl, rfl, rfl⟩

/-- Witness for C9 at a concrete environment taking the migration path:
both cursors sit at position 0 over the same raw bytes and the raw
content was read once. -/
theorem claim_C9_witness :
    ((Cursor.mk [1, 2, 3] 0).data = envOld.rawBytes ∧
      (Cursor.mk [1, 2, 3] 0).pos = 0 ∧
      (restoreStateFromDiskT envOld).2.readAllCalls = 1) ∧
    ((Cursor.mk [1, 2, 3] 0).data = envOld.rawBytes ∧
      (Cursor.mk [1, 2, 3] 0).pos = 0 ∧
      (restoreStateFromDiskT envOld).2.probeCursor =
        some ⟨envOld.rawBytes, 0⟩) :=
  ⟨(claim_C9 envOld).2.1 ⟨[1, 2, 3], 0⟩ rfl,
   (claim_C9 envOld).2.2 ⟨[1, 2, 3], 0⟩ rfl⟩

/-! ## Claim C4: export then import round trip -/

/-- A well-formed pin map: keys are mutually distinct and each entry is
keyed by the content identifier of its record, the invariant of a map
keyed by cid. -/
def MapState.wellFormed (s : MapState) : Prop :=
  (s.pinMap.map Prod.fst).Nodup ∧ ∀ kv ∈ s.pinMap, kv.1 = kv.2.cid

/-- Adding records whose identifiers are mutually distinct and absent
from the pin map appends them to it in order. -/
lemma addAllE_add_disjoint (l : List Pin) (s : MapState)
    (hnd : (l.map Pin.cid).Nodup)
    (hdisj : ∀ p ∈ l, ∀ kv ∈ s.pinMap, kv.1 ≠ p.cid) :
    addAllE MapState.add s l =
      .ok ⟨s.version, s.pinMap ++ l.map (fun p => (p.cid, p))⟩ := by
  induction l generalizing s with
  | nil =>
    simp [addAllE]
  | cons p ps ih =>
    have hfilter : s.pinMap.filter (fun kv => kv.1 != p.cid) = s.pinMap := by
      apply List.filter_eq_self.mpr
      intro kv hkv
      simpa using hdisj p (List.mem_cons_self p ps) kv hkv
    have hadd : MapState.add s p = .ok ⟨s.version, s.pinMap ++ [(p.cid, p)]⟩ := by
      simp [MapState.add, hfilter]
    have hnd2 : (ps.map Pin.cid).Nodup := (List.nodup_cons.mp hnd).2
    have hnotin : p.cid ∉ ps.map Pin.cid := (List.nodup_cons.mp hnd).1
    have hdisj2 : ∀ q ∈ ps, ∀ kv ∈ s.pinMap ++ [(p.cid, p)], kv.1 ≠ q.cid := by
      intro q hq kv hkv
      rcases List.mem_append.mp hkv with hkv | hkv
      · exact hdisj q (List.mem_cons_of_mem p hq) kv hkv
      · have hkv2 : kv = (p.cid, p) := by simpa using hkv
        subst hkv2
        intro hcontra
        apply hnotin
        rw [show p.cid = q.cid from hcontra]
        exact List.mem_map_of_mem Pin.cid hq
    rw [addAllE, hadd]
    show addAllE MapState.add ⟨s.version, s.pinMap ++ [(p.cid, p)]⟩ ps = _
    rw [ih ⟨s.version, s.pinMap ++ [(p.cid, p)]⟩ hnd2 hdisj2]
    simp

/-- Claim C4: exporting any well-formed state and then running the
decode-and-add phase of stateImport on the produced document yields a
state whose record set equals the original record set. -/
theorem claim_C4 (s : MapState) (hwf : s.wellFormed) :
    ∃ s2, importPins (exportState s) = .ok s2 ∧
      ∀ p, p ∈ s2.list ↔ p ∈ s.list := by
  have hmap : (exportState s).map Pin.cid = s.pinMap.map Prod.fst := by
    unfold exportState MapState.list
    rw [List.map_map]
    exact List.map_congr_left fun kv hkv => (hwf.2 kv hkv).symm
  have hnd : ((exportState s).map Pin.cid).Nodup := hmap ▸ hwf.1
  have hdisj : ∀ p ∈ exportState s, ∀ kv ∈ newMapState.pinMap, kv.1 ≠ p.cid := by
    intro p hp kv hkv
    simp [newMapState] at hkv
  have h := addAllE_add_disjoint (exportState s) newMapState hnd hdisj
  refine ⟨_, h, fun p => ?_⟩
  have hlist :
      (MapState.mk newMapState.version
        (newMapState.pinMap ++ (exportState s).map (fun p => (p.cid, p)))).list =
        s.list := by
    simp [MapState.list, exportState, newMapState, List.map_map, Function.comp]
  rw [hlist]

/-- A concrete two-record state used to witness the round trip. -/
def sampleState : MapState :=
  ⟨mapstateVersion, [("cida", ⟨"cida", 1, 2⟩), ("cidb", ⟨"cidb", 0, 3⟩)]⟩

/-- Witness for C4: the round trip at a concrete two-record state. -/
theorem claim_C4_witness :
    ∃ s2, importPins (exportState sampleState) = .ok s2 ∧
      ∀ p, p ∈ s2.list ↔ p ∈ sampleState.list :=
  claim_C4 sampleState ⟨by decide, by decide⟩
